import Mathlib

/-!
# A shallow embedding of the Go binding `xmlsec.go`

The file under study is a cgo binding: every function validates its Go-side
handles and then calls into the C libraries (xmlsec1, libxslt, libxml2) or into
go-libxml2.  The embedding keeps the control flow of each Go function and of
the C helper `go_xmlsec_init`, and treats everything that is declared outside
the file as an environment `Env`:

* the C functions are state transformers on the C-side state `CState`;
* every C call made by the file is appended to a call trace, so that
  "the backend is (not) invoked" is a statement about the trace;
* C pointers are natural numbers, `0` being `NULL` / Go `nil`;
* `xmlChar*` and `char*` arguments are `Option String`, `none` being `NULL`;
  a Go string is text (a Lean `String`), and the C string made from it by
  `C.CString` is the part before its first NUL character, which is what a C
  reader of the copy sees;
* Go integers converted to a C integer type wrap around to its width;
* `xmlSecFindNode` and the go-libxml2 functions `DocumentElement` and
  `WrapToNodeUnsafe` only read the C state, so they are queries on it;
* the `C.CString` / `C.free` pairs of temporary strings are not traced, and a
  `*libxml2.Document` argument is taken to be non-nil.

No function of the file assigns the `ptr` field of a `DSigCtx` or of a `Key`,
so Go-side wrapper objects are passed as immutable values.
-/

namespace Xmlsec

/-! ## Go-side values -/

/-- Go `error` values the binding returns.  `ErrInvalidDSigCtx` is a package
variable, `ErrInvalidNode` and `ErrInvalidDocument` belong to go-libxml2,
`new msg` is `errors.New(msg)` and `lib` is any error produced inside
go-libxml2 (`DocumentElement`, `WrapToNodeUnsafe`). -/
inductive GoError where
  | ErrInvalidDSigCtx
  | ErrInvalidNode
  | ErrInvalidDocument
  | new (msg : String)
  | lib (code : Nat)
  deriving DecidableEq, Repr

/-- Outcome of a Go call that may hit a run-time panic. -/
inductive GoResult (α : Type) where
  | ret (v : α)
  | panicked (msg : String)
  deriving DecidableEq, Repr

/-- A non-nil `libxml2.Node` interface value; `pointer` is what `n.Pointer()` returns. -/
structure XmlNode where
  pointer : Nat
  deriving DecidableEq, Repr

/-- A `libxml2.Node` interface value; `none` is the nil interface. -/
abbrev Node := Option XmlNode

/-- The Go struct `DSigCtx`. -/
structure DSigCtx where
  ptr : Nat
  deriving DecidableEq, Repr

/-- The Go struct `Key`. -/
structure Key where
  ptr : Nat
  deriving DecidableEq, Repr

/-- The Go struct `TransformID`. -/
structure TransformID where
  ptr : Nat
  deriving DecidableEq, Repr

/-- A non-nil `*libxml2.Document`; `pointer` is what `doc.Pointer()` returns. -/
structure Document where
  pointer : Nat
  deriving DecidableEq, Repr

/-- The type `KeyDataFormat` (a Go `int`). -/
abbrev KeyDataFormat := Int

/-! ## C-side state and the call trace -/

/-- The libxslt security options named in `go_xmlsec_init`. -/
inductive XsltSecurityOption where
  | XSLT_SECPREF_READ_FILE
  | XSLT_SECPREF_WRITE_FILE
  | XSLT_SECPREF_CREATE_DIRECTORY
  | XSLT_SECPREF_READ_NETWORK
  | XSLT_SECPREF_WRITE_NETWORK
  deriving DecidableEq, Repr

/-- The libxslt security check functions that can be installed for an option. -/
inductive XsltSecurityCheck where
  | xsltSecurityForbid
  | xsltSecurityAllow
  deriving DecidableEq, Repr

/-- The C struct `xmlSecDSigCtx`: the two fields the Go code touches, and the
remaining fields as `rest`. -/
structure XmlSecDSigCtx (R : Type) where
  signKey : Nat
  status : Int
  rest : R

/-- The C-side state the libraries own: the libxml2 global `xmlIndentTreeOutput`,
the memory holding `xmlSecDSigCtx` structs, and the rest of the C world
(documents, keys, library globals) as `ext`. -/
structure CState (R E : Type) where
  xmlIndentTreeOutput : Int
  dsigCtx : Nat → XmlSecDSigCtx R
  ext : E

/-- One C call made by the binding, with its arguments. -/
inductive Call where
  | xsltNewSecurityPrefs
  | xsltSetSecurityPrefs (prefs : Nat) (option : XsltSecurityOption) (check : XsltSecurityCheck)
  | xsltSetDefaultSecurityPrefs (prefs : Nat)
  | xmlSecInit
  | xmlSecCheckVersion
  | xmlSecCryptoAppInit
  | xmlSecCryptoInit
  | xmlSecDSigCtxCreate
  | xmlSecDSigCtxDestroy (ctx : Nat)
  | xmlSecCryptoAppKeyLoadMemory (data : List Nat) (size : Int) (format : Int)
  | xmlSecCryptoAppKeyLoad (file : String) (format : Int)
  | xmlSecKeySetName (key : Nat) (name : String)
  | xmlSecKeyDestroy (key : Nat)
  | xmlSecDSigCtxSign (ctx node : Nat)
  | xmlSecDSigCtxVerify (ctx node : Nat)
  | xmlSecFindNode (parent : Nat) (name ns : String)
  | xmlSecTmplSignatureAddReference (node digest : Nat) (id uri type : Option String)
  | xmlSecTmplReferenceAddTransform (node transform : Nat)
  | xmlSecTmplSignatureEnsureKeyInfo (node : Nat) (id : Option String)
  | xmlSecTmplKeyInfoAddX509Data (node : Nat)
  deriving DecidableEq, Repr

/-- The state of a run: the C world, the file-local static `xsltSecPrefs` of
the cgo preamble, and the calls made so far. -/
structure St (R E : Type) where
  c : CState R E
  xsltSecPrefs : Nat
  trace : List Call

/-- Everything the file uses but does not define: the C functions, the
go-libxml2 functions, and the constants and type widths declared elsewhere
(`xmlSecSizeBits` is the width of the unsigned C type `xmlSecSize`). -/
structure Env (R E : Type) where
  xmlSecSizeBits : Nat
  xmlSecDSigStatusSucceeded : Int
  SignatureNode : String
  DSigNs : String
  xsltNewSecurityPrefs : CState R E → Nat × CState R E
  xsltSetSecurityPrefs : CState R E → Nat → XsltSecurityOption → XsltSecurityCheck → CState R E
  xsltSetDefaultSecurityPrefs : CState R E → Nat → CState R E
  xmlSecInit : CState R E → Int × CState R E
  xmlSecCheckVersion : CState R E → Int × CState R E
  xmlSecCryptoAppInit : CState R E → Int × CState R E
  xmlSecCryptoInit : CState R E → Int × CState R E
  xmlSecDSigCtxCreate : CState R E → Nat × CState R E
  xmlSecDSigCtxDestroy : CState R E → Nat → CState R E
  xmlSecCryptoAppKeyLoadMemory : CState R E → List Nat → Int → Int → Nat × CState R E
  xmlSecCryptoAppKeyLoad : CState R E → String → Int → Nat × CState R E
  xmlSecKeySetName : CState R E → Nat → String → Int × CState R E
  xmlSecDSigCtxSign : CState R E → Nat → Nat → Int × CState R E
  xmlSecDSigCtxVerify : CState R E → Nat → Nat → Int × CState R E
  xmlSecFindNode : CState R E → Nat → String → String → Nat
  xmlSecTmplSignatureAddReference :
    CState R E → Nat → Nat → Option String → Option String → Option String → Nat × CState R E
  xmlSecTmplReferenceAddTransform : CState R E → Nat → Nat → Nat × CState R E
  xmlSecTmplSignatureEnsureKeyInfo : CState R E → Nat → Option String → Nat × CState R E
  xmlSecTmplKeyInfoAddX509Data : CState R E → Nat → Nat × CState R E
  DocumentElement : CState R E → Document → Except GoError Node
  WrapToNodeUnsafe : CState R E → Nat → Except GoError Node

variable {R E : Type}

/-- The state after a C call: the C world the call left and the call appended
to the trace. -/
def St.after (s : St R E) (c : CState R E) (call : Call) : St R E :=
  { s with c := c, trace := s.trace ++ [call] }

/-- The value of `C.int(n)` for a Go `int` `n`: wrap-around to 32 bits. -/
def cInt (n : Int) : Int :=
  (n + 2147483648) % 4294967296 - 2147483648

/-- The value of `(C.xmlSecSize)(n)`: wrap-around to the unsigned type of
`bits` bits. -/
def cXmlSecSize (bits : Nat) (n : Int) : Int :=
  n % (2 : Int) ^ bits

/-- The value of `(C.xmlSecKeyDataFormat)(format)`: cgo represents the C enum
as an unsigned 32-bit integer, so the Go `int` wraps around to 32 bits. -/
def cKeyDataFormat (format : Int) : Int :=
  format % 4294967296

/-- The C string a C reader sees in `C.CString(s)`: the copy of `s` ends at the
terminating NUL, so the text stops before the first NUL character of `s`. -/
def CString (s : String) : String :=
  String.mk (s.data.takeWhile (fun ch => ch ≠ Char.ofNat 0))

/-! ## The C helper `go_xmlsec_init` and `Init` -/

/-- Lines 35-42 of `go_xmlsec_init`: tree indentation, then the security
preferences that forbid file and network access, installed as the default. -/
def go_xmlsec_init_policy (B : Env R E) (s0 : St R E) : St R E :=
  let c0 : CState R E := { s0.c with xmlIndentTreeOutput := 1 }
  let r := B.xsltNewSecurityPrefs c0
  let s1 : St R E :=
    { c := r.2, xsltSecPrefs := r.1, trace := s0.trace ++ [Call.xsltNewSecurityPrefs] }
  let set (s : St R E) (o : XsltSecurityOption) : St R E :=
    s.after (B.xsltSetSecurityPrefs s.c s.xsltSecPrefs o XsltSecurityCheck.xsltSecurityForbid)
      (Call.xsltSetSecurityPrefs s.xsltSecPrefs o XsltSecurityCheck.xsltSecurityForbid)
  let s2 := set s1 XsltSecurityOption.XSLT_SECPREF_READ_FILE
  let s3 := set s2 XsltSecurityOption.XSLT_SECPREF_WRITE_FILE
  let s4 := set s3 XsltSecurityOption.XSLT_SECPREF_CREATE_DIRECTORY
  let s5 := set s4 XsltSecurityOption.XSLT_SECPREF_READ_NETWORK
  let s6 := set s5 XsltSecurityOption.XSLT_SECPREF_WRITE_NETWORK
  s6.after (B.xsltSetDefaultSecurityPrefs s6.c s6.xsltSecPrefs)
    (Call.xsltSetDefaultSecurityPrefs s6.xsltSecPrefs)

/-- Lines 44-61 of `go_xmlsec_init`, run on the state the policy lines left.
The message printed to stderr when the last step fails is not modelled. -/
def go_xmlsec_init_steps (B : Env R E) (s : St R E) : Int × St R E :=
  let r1 := B.xmlSecInit s.c
  let s1 := s.after r1.2 Call.xmlSecInit
  if r1.1 < 0 then (-1, s1) else
  let r2 := B.xmlSecCheckVersion s1.c
  let s2 := s1.after r2.2 Call.xmlSecCheckVersion
  if r2.1 ≠ 1 then (-1, s2) else
  let r3 := B.xmlSecCryptoAppInit s2.c
  let s3 := s2.after r3.2 Call.xmlSecCryptoAppInit
  if r3.1 < 0 then (-1, s3) else
  let r4 := B.xmlSecCryptoInit s3.c
  let s4 := s3.after r4.2 Call.xmlSecCryptoInit
  if r4.1 < 0 then (-1, s4) else
  (0, s4)

/-- The C function `go_xmlsec_init`. -/
def go_xmlsec_init (B : Env R E) (s : St R E) : Int × St R E :=
  go_xmlsec_init_steps B (go_xmlsec_init_policy B s)

/-- The Go function `Init`. -/
def Init (B : Env R E) (s : St R E) : Option GoError × St R E :=
  let r := go_xmlsec_init B s
  if r.1 < 0 then (some (GoError.new "failed to initialize"), r.2) else (none, r.2)

/-! ## Handle validation -/

/-- The Go function `stringToXMLChar`: the C copy of a Go string. -/
def stringToXMLChar (s : String) : String := CString s

/-- The Go function `validNodePtr`. -/
def validNodePtr (n : Node) : Except GoError Nat :=
  match n with
  | none => Except.error GoError.ErrInvalidNode
  | some x =>
    let nptr := x.pointer
    if nptr = 0 then Except.error GoError.ErrInvalidNode else Except.ok nptr

/-- The Go function `validDSigCtxPtr`. -/
def validDSigCtxPtr (ctx : Option DSigCtx) : Except GoError Nat :=
  match ctx with
  | none => Except.error GoError.ErrInvalidDSigCtx
  | some x =>
    if x.ptr ≠ 0 then Except.ok x.ptr else Except.error GoError.ErrInvalidDSigCtx

/-! ## Contexts and keys -/

/-- The Go function `xmlSecDSigCtxCreate`. -/
def xmlSecDSigCtxCreate (B : Env R E) (s : St R E) : Except GoError DSigCtx × St R E :=
  let r := B.xmlSecDSigCtxCreate s.c
  let s1 := s.after r.2 Call.xmlSecDSigCtxCreate
  if r.1 = 0 then (Except.error (GoError.new "failed to create DSigCtx"), s1)
  else (Except.ok { ptr := r.1 }, s1)

/-- The Go function `xmlSecDSigCtxDestroy`. -/
def xmlSecDSigCtxDestroy (B : Env R E) (ctx : Option DSigCtx) (s : St R E) :
    Option GoError × St R E :=
  match validDSigCtxPtr ctx with
  | Except.error err => (some err, s)
  | Except.ok ctxptr =>
    (none, s.after (B.xmlSecDSigCtxDestroy s.c ctxptr) (Call.xmlSecDSigCtxDestroy ctxptr))

/-- The Go function `xmlSecCryptoAppKeyLoadMemory`.  The expression `&buf[0]`
is evaluated first and panics on a buffer of length 0. -/
def xmlSecCryptoAppKeyLoadMemory (B : Env R E) (buf : List Nat) (format : KeyDataFormat)
    (s : St R E) : GoResult (Except GoError Key) × St R E :=
  match buf with
  | [] => (GoResult.panicked "runtime error: index out of range [0] with length 0", s)
  | _ :: _ =>
    let size := cXmlSecSize B.xmlSecSizeBits (cInt buf.length)
    let cformat := cKeyDataFormat format
    let r := B.xmlSecCryptoAppKeyLoadMemory s.c buf size cformat
    let s1 := s.after r.2 (Call.xmlSecCryptoAppKeyLoadMemory buf size cformat)
    if r.1 = 0 then (GoResult.ret (Except.error (GoError.new "failed to load key")), s1)
    else (GoResult.ret (Except.ok { ptr := r.1 }), s1)

/-- The Go function `xmlSecCryptoAppKeyLoad`. -/
def xmlSecCryptoAppKeyLoad (B : Env R E) (file : String) (format : KeyDataFormat)
    (s : St R E) : Except GoError Key × St R E :=
  let cfile := CString file
  let cformat := cKeyDataFormat format
  let r := B.xmlSecCryptoAppKeyLoad s.c cfile cformat
  let s1 := s.after r.2 (Call.xmlSecCryptoAppKeyLoad cfile cformat)
  if r.1 = 0 then (Except.error (GoError.new "failed to load key"), s1) else
  let r2 := B.xmlSecKeySetName s1.c r.1 cfile
  let s2 := s1.after r2.2 (Call.xmlSecKeySetName r.1 cfile)
  if r2.1 < 0 then (Except.error (GoError.new "failed to set key name"), s2)
  else (Except.ok { ptr := r.1 }, s2)

/-- The assignment `ctxptr.signKey = v` on the C struct at address `ctxptr`. -/
def CState.setSignKey (c : CState R E) (ctxptr v : Nat) : CState R E :=
  { c with dsigCtx := fun p => if p = ctxptr then { c.dsigCtx p with signKey := v } else c.dsigCtx p }

/-- The Go method `(ctx *DSigCtx) SetKey`.  `key.ptr` dereferences `key`, which
panics when `key` is nil. -/
def DSigCtx.SetKey (ctx : Option DSigCtx) (key : Option Key) (s : St R E) :
    GoResult (Option GoError) × St R E :=
  match validDSigCtxPtr ctx with
  | Except.error err => (GoResult.ret (some err), s)
  | Except.ok ctxptr =>
    match key with
    | none => (GoResult.panicked "runtime error: invalid memory address or nil pointer dereference", s)
    | some k => (GoResult.ret none, { s with c := s.c.setSignKey ctxptr k.ptr })

/-! ## Signing and verifying -/

/-- The Go function `xmlSecDSigCtxSignRaw`. -/
def xmlSecDSigCtxSignRaw (B : Env R E) (ctxptr nodeptr : Nat) (s : St R E) :
    Option GoError × St R E :=
  let r := B.xmlSecDSigCtxSign s.c ctxptr nodeptr
  let s1 := s.after r.2 (Call.xmlSecDSigCtxSign ctxptr nodeptr)
  if r.1 < 0 then (some (GoError.new "failed to sign node"), s1) else (none, s1)

/-- The Go function `xmlSecDSigCtxSignNode`. -/
def xmlSecDSigCtxSignNode (B : Env R E) (ctx : Option DSigCtx) (n : Node) (s : St R E) :
    Option GoError × St R E :=
  match validDSigCtxPtr ctx with
  | Except.error err => (some err, s)
  | Except.ok ctxptr =>
    match validNodePtr n with
    | Except.error err => (some err, s)
    | Except.ok nodeptr => xmlSecDSigCtxSignRaw B ctxptr nodeptr s

/-- The Go function `xmlSecDSigCtxSignDocument`. -/
def xmlSecDSigCtxSignDocument (B : Env R E) (ctx : Option DSigCtx) (doc : Document)
    (s : St R E) : Option GoError × St R E :=
  match validDSigCtxPtr ctx with
  | Except.error err => (some err, s)
  | Except.ok ctxptr =>
    match B.DocumentElement s.c doc with
    | Except.error err => (some err, s)
    | Except.ok root =>
      match validNodePtr root with
      | Except.error err => (some err, s)
      | Except.ok rootptr =>
        let cname := stringToXMLChar B.SignatureNode
        let cns := stringToXMLChar B.DSigNs
        let nodeptr := B.xmlSecFindNode s.c rootptr cname cns
        let s1 := s.after s.c (Call.xmlSecFindNode rootptr cname cns)
        if nodeptr = 0 then (some (GoError.new "failed to find start node"), s1)
        else xmlSecDSigCtxSignRaw B ctxptr nodeptr s1

/-- The Go function `xmlSecDSigCtxVerifyRaw`. -/
def xmlSecDSigCtxVerifyRaw (B : Env R E) (ctxptr nodeptr : Nat) (s : St R E) :
    Option GoError × St R E :=
  let r := B.xmlSecDSigCtxVerify s.c ctxptr nodeptr
  let s1 := s.after r.2 (Call.xmlSecDSigCtxVerify ctxptr nodeptr)
  if r.1 < 0 then (some (GoError.new "failed to verify node"), s1)
  else if (s1.c.dsigCtx ctxptr).status ≠ B.xmlSecDSigStatusSucceeded then
    (some (GoError.new "signature verification failed"), s1)
  else (none, s1)

/-- The Go function `xmlSecDSigCtxVerifyNode`. -/
def xmlSecDSigCtxVerifyNode (B : Env R E) (ctx : Option DSigCtx) (n : Node) (s : St R E) :
    Option GoError × St R E :=
  match validDSigCtxPtr ctx with
  | Except.error err => (some err, s)
  | Except.ok ctxptr =>
    match validNodePtr n with
    | Except.error err => (some err, s)
    | Except.ok nodeptr => xmlSecDSigCtxVerifyRaw B ctxptr nodeptr s

/-- The Go function `xmlSecDSigCtxVerifyDocument`. -/
def xmlSecDSigCtxVerifyDocument (B : Env R E) (ctx : Option DSigCtx) (doc : Document)
    (s : St R E) : Option GoError × St R E :=
  match validDSigCtxPtr ctx with
  | Except.error err => (some err, s)
  | Except.ok ctxptr =>
    match B.DocumentElement s.c doc with
    | Except.error err => (some err, s)
    | Except.ok root =>
      match validNodePtr root with
      | Except.error err => (some err, s)
      | Except.ok rootptr =>
        let cname := stringToXMLChar B.SignatureNode
        let cns := stringToXMLChar B.DSigNs
        let nodeptr := B.xmlSecFindNode s.c rootptr cname cns
        let s1 := s.after s.c (Call.xmlSecFindNode rootptr cname cns)
        if nodeptr = 0 then (some (GoError.new "failed to find start node"), s1)
        else xmlSecDSigCtxVerifyRaw B ctxptr nodeptr s1

/-! ## Templates -/

/-- The Go function `xmlSecTmplSignatureAddReference`. -/
def xmlSecTmplSignatureAddReference (B : Env R E) (signode : Node) (digestMethod : TransformID)
    (id uri nodeType : String) (s : St R E) : Except GoError Node × St R E :=
  match validNodePtr signode with
  | Except.error err => (Except.error err, s)
  | Except.ok nptr =>
    let idxml : Option String := if id ≠ "" then some (stringToXMLChar id) else none
    let urixml : Option String := if uri ≠ "" then some (stringToXMLChar uri) else none
    let typexml : Option String := if nodeType ≠ "" then some (stringToXMLChar nodeType) else none
    let r := B.xmlSecTmplSignatureAddReference s.c nptr digestMethod.ptr idxml urixml typexml
    let s1 := s.after r.2
      (Call.xmlSecTmplSignatureAddReference nptr digestMethod.ptr idxml urixml typexml)
    if r.1 = 0 then (Except.error (GoError.new "failed to add reference"), s1)
    else (B.WrapToNodeUnsafe s1.c r.1, s1)

/-- The Go function `xmlSecTmplReferenceAddTransform`. -/
def xmlSecTmplReferenceAddTransform (B : Env R E) (n : Node) (transformId : TransformID)
    (s : St R E) : Except GoError Node × St R E :=
  match validNodePtr n with
  | Except.error err => (Except.error err, s)
  | Except.ok nptr =>
    let r := B.xmlSecTmplReferenceAddTransform s.c nptr transformId.ptr
    let s1 := s.after r.2 (Call.xmlSecTmplReferenceAddTransform nptr transformId.ptr)
    if r.1 = 0 then (Except.error (GoError.new "failed to add transform"), s1)
    else (B.WrapToNodeUnsafe s1.c r.1, s1)

/-- The Go function `xmlSecTmplSignatureEnsureKeyInfo`. -/
def xmlSecTmplSignatureEnsureKeyInfo (B : Env R E) (n : Node) (id : String) (s : St R E) :
    Except GoError Node × St R E :=
  match validNodePtr n with
  | Except.error err => (Except.error err, s)
  | Except.ok nptr =>
    let idc : Option String := if id ≠ "" then some (stringToXMLChar id) else none
    let r := B.xmlSecTmplSignatureEnsureKeyInfo s.c nptr idc
    let s1 := s.after r.2 (Call.xmlSecTmplSignatureEnsureKeyInfo nptr idc)
    if r.1 = 0 then (Except.error (GoError.new "failed to add KeyInfo node"), s1)
    else (B.WrapToNodeUnsafe s1.c r.1, s1)

/-- The Go function `xmlSecTmplKeyInfoAddX509Data`. -/
def xmlSecTmplKeyInfoAddX509Data (B : Env R E) (n : Node) (s : St R E) :
    Except GoError Node × St R E :=
  match validNodePtr n with
  | Except.error err => (Except.error err, s)
  | Except.ok nptr =>
    let r := B.xmlSecTmplKeyInfoAddX509Data s.c nptr
    let s1 := s.after r.2 (Call.xmlSecTmplKeyInfoAddX509Data nptr)
    if r.1 = 0 then (Except.error (GoError.new "failed to add X509Data node"), s1)
    else (B.WrapToNodeUnsafe s1.c r.1, s1)

/-! ## Specification-side vocabulary -/

/-- The calls that install the deny policy on the preferences object `prefs`:
create it, forbid the five file and network capabilities, make it the default. -/
def denyPolicyCalls (prefs : Nat) : List Call :=
  [ Call.xsltNewSecurityPrefs,
    Call.xsltSetSecurityPrefs prefs XsltSecurityOption.XSLT_SECPREF_READ_FILE
      XsltSecurityCheck.xsltSecurityForbid,
    Call.xsltSetSecurityPrefs prefs XsltSecurityOption.XSLT_SECPREF_WRITE_FILE
      XsltSecurityCheck.xsltSecurityForbid,
    Call.xsltSetSecurityPrefs prefs XsltSecurityOption.XSLT_SECPREF_CREATE_DIRECTORY
      XsltSecurityCheck.xsltSecurityForbid,
    Call.xsltSetSecurityPrefs prefs XsltSecurityOption.XSLT_SECPREF_READ_NETWORK
      XsltSecurityCheck.xsltSecurityForbid,
    Call.xsltSetSecurityPrefs prefs XsltSecurityOption.XSLT_SECPREF_WRITE_NETWORK
      XsltSecurityCheck.xsltSecurityForbid,
    Call.xsltSetDefaultSecurityPrefs prefs ]

/-! ## A concrete environment for runs on explicit inputs -/

/-- The C world of the concrete runs: zeroed context structs, tree indentation
off, and a counter of library calls as the rest of the world. -/
def sampleC : CState Unit Nat :=
  { xmlIndentTreeOutput := 0
    dsigCtx := fun _ => { signKey := 0, status := 0, rest := () }
    ext := 0 }

/-- The initial state of the concrete runs. -/
def sampleSt : St Unit Nat :=
  { c := sampleC, xsltSecPrefs := 0, trace := [] }

/-- One library call in the concrete world: count it. -/
def tick (c : CState Unit Nat) : CState Unit Nat :=
  { c with ext := c.ext + 1 }

/-- The write of a verification status into the context struct at `ctx`. -/
def withStatus (c : CState Unit Nat) (ctx : Nat) (v : Int) : CState Unit Nat :=
  { c with dsigCtx := fun p => if p = ctx then { c.dsigCtx p with status := v } else c.dsigCtx p }

/-- A concrete environment.  Document 1 has root element 5, under which the
Signature element 6 is found; document 2 has root element 7 with no Signature
element.  Verification never reports a low-level error; it records status 1
(succeeded) for node 6 and status 2 for any other node.  Key loading yields
key 21 and naming a key fails. -/
def sampleEnv : Env Unit Nat :=
  { xmlSecSizeBits := 64
    xmlSecDSigStatusSucceeded := 1
    SignatureNode := "Signature"
    DSigNs := "http://www.w3.org/2000/09/xmldsig#"
    xsltNewSecurityPrefs := fun c => (100, tick c)
    xsltSetSecurityPrefs := fun c _ _ _ => tick c
    xsltSetDefaultSecurityPrefs := fun c _ => tick c
    xmlSecInit := fun c => (0, tick c)
    xmlSecCheckVersion := fun c => (1, tick c)
    xmlSecCryptoAppInit := fun c => (0, tick c)
    xmlSecCryptoInit := fun c => (0, tick c)
    xmlSecDSigCtxCreate := fun c => (10, tick c)
    xmlSecDSigCtxDestroy := fun c _ => tick c
    xmlSecCryptoAppKeyLoadMemory := fun c _ _ _ => (20, tick c)
    xmlSecCryptoAppKeyLoad := fun c _ _ => (21, tick c)
    xmlSecKeySetName := fun c _ _ => (-1, tick c)
    xmlSecDSigCtxSign := fun c _ _ => (0, tick c)
    xmlSecDSigCtxVerify := fun c ctx node => (0, withStatus (tick c) ctx (if node = 6 then 1 else 2))
    xmlSecFindNode := fun _ parent _ _ => if parent = 5 then 6 else 0
    xmlSecTmplSignatureAddReference := fun c _ _ _ _ _ => (30, tick c)
    xmlSecTmplReferenceAddTransform := fun c _ _ => (31, tick c)
    xmlSecTmplSignatureEnsureKeyInfo := fun c _ _ => (32, tick c)
    xmlSecTmplKeyInfoAddX509Data := fun c _ => (33, tick c)
    DocumentElement := fun _ doc =>
      if doc.pointer = 1 then Except.ok (some { pointer := 5 })
      else if doc.pointer = 2 then Except.ok (some { pointer := 7 })
      else Except.error (GoError.lib 0)
    WrapToNodeUnsafe := fun _ p => Except.ok (some { pointer := p }) }

/-- The effect on the C state of one call of `go_xmlsec_init`, as the backend
performs it on the arguments the call carries; calls made elsewhere in the file
are not interpreted. -/
def initCallEffect (B : Env R E) (c : CState R E) (call : Call) : CState R E :=
  match call with
  | Call.xsltNewSecurityPrefs => (B.xsltNewSecurityPrefs c).2
  | Call.xsltSetSecurityPrefs prefs o check => B.xsltSetSecurityPrefs c prefs o check
  | Call.xsltSetDefaultSecurityPrefs prefs => B.xsltSetDefaultSecurityPrefs c prefs
  | Call.xmlSecInit => (B.xmlSecInit c).2
  | Call.xmlSecCheckVersion => (B.xmlSecCheckVersion c).2
  | Call.xmlSecCryptoAppInit => (B.xmlSecCryptoAppInit c).2
  | Call.xmlSecCryptoInit => (B.xmlSecCryptoInit c).2
  | _ => c

/-- The C state reached from `c` when the backend performs `calls` in order. -/
def replayInit (B : Env R E) (calls : List Call) (c : CState R E) : CState R E :=
  calls.foldl (initCallEffect B) c

/-- An environment over any world in which every state-changing C function
succeeds and leaves the world as it is; the locator finds nothing and a
document has no root element. -/
def quietEnv (E : Type) : Env Unit E :=
  { xmlSecSizeBits := 64
    xmlSecDSigStatusSucceeded := 1
    SignatureNode := "Signature"
    DSigNs := "http://www.w3.org/2000/09/xmldsig#"
    xsltNewSecurityPrefs := fun c => (100, c)
    xsltSetSecurityPrefs := fun c _ _ _ => c
    xsltSetDefaultSecurityPrefs := fun c _ => c
    xmlSecInit := fun c => (0, c)
    xmlSecCheckVersion := fun c => (1, c)
    xmlSecCryptoAppInit := fun c => (0, c)
    xmlSecCryptoInit := fun c => (0, c)
    xmlSecDSigCtxCreate := fun c => (10, c)
    xmlSecDSigCtxDestroy := fun c _ => c
    xmlSecCryptoAppKeyLoadMemory := fun c _ _ _ => (20, c)
    xmlSecCryptoAppKeyLoad := fun c _ _ => (21, c)
    xmlSecKeySetName := fun c _ _ => (0, c)
    xmlSecDSigCtxSign := fun c _ _ => (0, c)
    xmlSecDSigCtxVerify := fun c _ _ => (0, c)
    xmlSecFindNode := fun _ _ _ _ => 0
    xmlSecTmplSignatureAddReference := fun c _ _ _ _ _ => (30, c)
    xmlSecTmplReferenceAddTransform := fun c _ _ => (31, c)
    xmlSecTmplSignatureEnsureKeyInfo := fun c _ _ => (32, c)
    xmlSecTmplKeyInfoAddX509Data := fun c _ => (33, c)
    DocumentElement := fun _ _ => Except.error (GoError.lib 0)
    WrapToNodeUnsafe := fun _ p => Except.ok (some { pointer := p }) }

/-- The libxslt side of a C world: the default security preferences object
(`0` when there is none) and, per preferences object, the capabilities for which
the forbid check is installed. -/
structure XsltWorld where
  defaultPrefs : Nat
  forbidden : List (Nat × XsltSecurityOption)
  deriving DecidableEq, Repr

/-- A world in which libxslt cannot allocate a preferences object:
`xsltNewSecurityPrefs` returns `NULL`, `xsltSetSecurityPrefs` does nothing on a
`NULL` object (and records the forbid check on any other), and
`xsltSetDefaultSecurityPrefs` makes its argument the default.  The four
initialisation steps succeed. -/
def oomXsltEnv : Env Unit XsltWorld :=
  { quietEnv XsltWorld with
    xsltNewSecurityPrefs := fun c => (0, c)
    xsltSetSecurityPrefs := fun c prefs o check =>
      if prefs = 0 then c
      else if check = XsltSecurityCheck.xsltSecurityForbid then
        { c with ext := { c.ext with forbidden := c.ext.forbidden ++ [(prefs, o)] } }
      else c
    xsltSetDefaultSecurityPrefs := fun c prefs =>
      { c with ext := { c.ext with defaultPrefs := prefs } } }

/-- The initial state of the run in `oomXsltEnv`: no default preferences
object, nothing forbidden. -/
def oomXsltSt : St Unit XsltWorld :=
  { c := { xmlIndentTreeOutput := 0
           dsigCtx := fun _ => { signKey := 0, status := 0, rest := () }
           ext := { defaultPrefs := 0, forbidden := [] } }
    xsltSecPrefs := 0
    trace := [] }

/-- A world that records, in order, the uri argument of every call to the
template provider `xmlSecTmplSignatureAddReference`. -/
def uriRecordingEnv : Env Unit (List (Option String)) :=
  { quietEnv (List (Option String)) with
    xmlSecTmplSignatureAddReference := fun c _ _ _ uri _ =>
      (30, { c with ext := c.ext ++ [uri] }) }

/-- The initial state of the run in `uriRecordingEnv`: nothing recorded. -/
def uriRecordingSt : St Unit (List (Option String)) :=
  { c := { xmlIndentTreeOutput := 0
           dsigCtx := fun _ => { signKey := 0, status := 0, rest := () }
           ext := [] }
    xsltSecPrefs := 0
    trace := [] }

/-! ## Theorems -/

/-- The policy lines of `go_xmlsec_init` set `xmlIndentTreeOutput`, keep the
object `xsltNewSecurityPrefs` returned in `xsltSecPrefs`, append exactly the
deny-policy calls on that object, and leave the C state the backend reaches by
performing those calls. -/
theorem go_xmlsec_init_policy_effect (B : Env R E) (s : St R E) :
    (go_xmlsec_init_policy B s).xsltSecPrefs =
      (B.xsltNewSecurityPrefs { s.c with xmlIndentTreeOutput := 1 }).1 ∧
    (go_xmlsec_init_policy B s).trace =
      s.trace ++ denyPolicyCalls (go_xmlsec_init_policy B s).xsltSecPrefs ∧
    (go_xmlsec_init_policy B s).c =
      replayInit B (denyPolicyCalls (go_xmlsec_init_policy B s).xsltSecPrefs)
        { s.c with xmlIndentTreeOutput := 1 } := by
  simp [go_xmlsec_init_policy, St.after, denyPolicyCalls, replayInit, initCallEffect]

/-- C8, as stated, fails: when libxslt cannot allocate the preferences object,
`Init` checks none of the policy calls and returns success, although in the
state the sub-steps start from no capability is forbidden and there is no
default preferences object. -/
theorem Init_policy_not_installed_counterexample :
    (Init oomXsltEnv oomXsltSt).1 = none ∧
    (go_xmlsec_init_policy oomXsltEnv oomXsltSt).c.ext = { defaultPrefs := 0, forbidden := [] } ∧
    (Init oomXsltEnv oomXsltSt).2.c.ext = { defaultPrefs := 0, forbidden := [] } ∧
    (Init oomXsltEnv oomXsltSt).2.trace =
      denyPolicyCalls 0 ++ [Call.xmlSecInit, Call.xmlSecCheckVersion, Call.xmlSecCryptoAppInit,
        Call.xmlSecCryptoInit] := by
  simp [Init, go_xmlsec_init, go_xmlsec_init_steps, go_xmlsec_init_policy, St.after,
    denyPolicyCalls, oomXsltEnv, oomXsltSt, quietEnv]

/-- C8, amended: `Init` succeeds exactly when all four sub-steps succeed
(library init, crypto-app init and crypto init return at least 0, the version
check returns 1) and returns the initialisation error exactly when one of them
fails.  In every run it first sets tree indentation and performs the policy
calls, unchecked: create a preferences object, set the forbid check for the
five file and network capabilities on it, make it the default; the C state the
sub-steps start from is the one the backend reaches by these calls.  Then the
sub-steps run in order up to and including the first failing one, and the final
C state is the one reached by exactly those sub-steps. -/
theorem Init_policy_calls_then_substeps (B : Env R E) (s : St R E) :
    let prefs := (B.xsltNewSecurityPrefs { s.c with xmlIndentTreeOutput := 1 }).1
    let p := go_xmlsec_init_policy B s
    let r1 := B.xmlSecInit p.c
    let r2 := B.xmlSecCheckVersion r1.2
    let r3 := B.xmlSecCryptoAppInit r2.2
    let r4 := B.xmlSecCryptoInit r3.2
    let ran : List Call :=
      if r1.1 < 0 then [Call.xmlSecInit]
      else if r2.1 ≠ 1 then [Call.xmlSecInit, Call.xmlSecCheckVersion]
      else if r3.1 < 0 then [Call.xmlSecInit, Call.xmlSecCheckVersion, Call.xmlSecCryptoAppInit]
      else [Call.xmlSecInit, Call.xmlSecCheckVersion, Call.xmlSecCryptoAppInit,
            Call.xmlSecCryptoInit]
    ((Init B s).1 = none ↔ (0 ≤ r1.1 ∧ r2.1 = 1 ∧ 0 ≤ r3.1 ∧ 0 ≤ r4.1)) ∧
    ((Init B s).1 = some (GoError.new "failed to initialize") ↔
      (r1.1 < 0 ∨ r2.1 ≠ 1 ∨ r3.1 < 0 ∨ r4.1 < 0)) ∧
    p.xsltSecPrefs = prefs ∧
    p.trace = s.trace ++ denyPolicyCalls prefs ∧
    p.c = replayInit B (denyPolicyCalls prefs) { s.c with xmlIndentTreeOutput := 1 } ∧
    (Init B s).2.trace = s.trace ++ denyPolicyCalls prefs ++ ran ∧
    (Init B s).2.c = replayInit B ran p.c ∧
    (Init B s).2.xsltSecPrefs = prefs := by
  obtain ⟨hq, ht, hc⟩ := go_xmlsec_init_policy_effect B s
  simp only [Init, go_xmlsec_init, go_xmlsec_init_steps, St.after]
  rw [← hq]
  generalize go_xmlsec_init_policy B s = p at hq ht hc ⊢
  refine ⟨?_, ?_, rfl, ht, hc, ?_, ?_, ?_⟩
  · split_ifs <;> simp_all
  · split_ifs <;> simp_all
  · rw [← ht]
    split_ifs <;> simp_all
  · split_ifs <;> simp_all [replayInit, initCallEffect]
  · split_ifs <;> rfl

/-- C1: for a valid context and a valid node, `VerifyNode` returns success if
and only if the backend verify call returns a code of at least 0 and the status
field of the context after the call equals succeeded; a non-negative code with
any other status gives the verification-failed error.  The same holds for
`VerifyDocument` on the Signature node the locator found under a valid root. -/
theorem verify_success_iff_backend_ok_and_status (B : Env R E) (ctx : DSigCtx) (n : XmlNode)
    (s : St R E) (hctx : ctx.ptr ≠ 0) (hn : n.pointer ≠ 0) :
    ((xmlSecDSigCtxVerifyNode B (some ctx) (some n) s).1 = none ↔
      (0 ≤ (B.xmlSecDSigCtxVerify s.c ctx.ptr n.pointer).1 ∧
       ((B.xmlSecDSigCtxVerify s.c ctx.ptr n.pointer).2.dsigCtx ctx.ptr).status =
         B.xmlSecDSigStatusSucceeded)) ∧
    ((0 ≤ (B.xmlSecDSigCtxVerify s.c ctx.ptr n.pointer).1 ∧
       ((B.xmlSecDSigCtxVerify s.c ctx.ptr n.pointer).2.dsigCtx ctx.ptr).status ≠
         B.xmlSecDSigStatusSucceeded) →
      (xmlSecDSigCtxVerifyNode B (some ctx) (some n) s).1 =
        some (GoError.new "signature verification failed")) ∧
    (∀ (doc : Document) (root : XmlNode),
      B.DocumentElement s.c doc = Except.ok (some root) → root.pointer ≠ 0 →
      B.xmlSecFindNode s.c root.pointer (stringToXMLChar B.SignatureNode)
        (stringToXMLChar B.DSigNs) ≠ 0 →
      ((xmlSecDSigCtxVerifyDocument B (some ctx) doc s).1 = none ↔
        (0 ≤ (B.xmlSecDSigCtxVerify s.c ctx.ptr
            (B.xmlSecFindNode s.c root.pointer (stringToXMLChar B.SignatureNode)
        (stringToXMLChar B.DSigNs))).1 ∧
         ((B.xmlSecDSigCtxVerify s.c ctx.ptr
            (B.xmlSecFindNode s.c root.pointer (stringToXMLChar B.SignatureNode)
        (stringToXMLChar B.DSigNs))).2.dsigCtx ctx.ptr).status =
           B.xmlSecDSigStatusSucceeded))) := by
  refine ⟨?_, ?_, ?_⟩
  · simp only [xmlSecDSigCtxVerifyNode, validDSigCtxPtr, validNodePtr, xmlSecDSigCtxVerifyRaw,
      St.after]
    by_cases h1 : (B.xmlSecDSigCtxVerify s.c ctx.ptr n.pointer).1 < 0
    · simp [h1, hctx, hn]
    · by_cases h2 : ((B.xmlSecDSigCtxVerify s.c ctx.ptr n.pointer).2.dsigCtx ctx.ptr).status =
        B.xmlSecDSigStatusSucceeded
      · simp [h1, h2, hctx, hn]
        omega
      · simp [h1, h2, hctx, hn]
  · simp only [xmlSecDSigCtxVerifyNode, validDSigCtxPtr, validNodePtr, xmlSecDSigCtxVerifyRaw,
      St.after]
    by_cases h1 : (B.xmlSecDSigCtxVerify s.c ctx.ptr n.pointer).1 < 0
    · simp [h1, hctx, hn]
    · by_cases h2 : ((B.xmlSecDSigCtxVerify s.c ctx.ptr n.pointer).2.dsigCtx ctx.ptr).status =
        B.xmlSecDSigStatusSucceeded
      · simp [h1, h2, hctx, hn]
      · simp [h1, h2, hctx, hn]
  · intro doc root hroot hrp hfind
    simp only [xmlSecDSigCtxVerifyDocument, validDSigCtxPtr, validNodePtr, hroot,
      xmlSecDSigCtxVerifyRaw, St.after]
    by_cases h1 : (B.xmlSecDSigCtxVerify s.c ctx.ptr
        (B.xmlSecFindNode s.c root.pointer (stringToXMLChar B.SignatureNode)
        (stringToXMLChar B.DSigNs))).1 < 0
    · simp [h1, hctx, hrp, hfind]
    · by_cases h2 : ((B.xmlSecDSigCtxVerify s.c ctx.ptr
          (B.xmlSecFindNode s.c root.pointer (stringToXMLChar B.SignatureNode)
        (stringToXMLChar B.DSigNs))).2.dsigCtx ctx.ptr).status =
        B.xmlSecDSigStatusSucceeded
      · simp [h1, h2, hctx, hrp, hfind]
        omega
      · simp [h1, h2, hctx, hrp, hfind]

/-- Witness for C1 at explicit inputs: context 10 on node 6 (status succeeded)
verifies, on node 7 (status 2 after a call without low-level error) it does
not, and document 1, whose Signature node is 6, verifies. -/
theorem verify_success_iff_backend_ok_and_status_witness :
    (xmlSecDSigCtxVerifyNode sampleEnv (some { ptr := 10 }) (some { pointer := 6 }) sampleSt).1
      = none ∧
    (xmlSecDSigCtxVerifyNode sampleEnv (some { ptr := 10 }) (some { pointer := 7 }) sampleSt).1
      = some (GoError.new "signature verification failed") ∧
    (xmlSecDSigCtxVerifyDocument sampleEnv (some { ptr := 10 }) { pointer := 1 } sampleSt).1
      = none :=
  ⟨(verify_success_iff_backend_ok_and_status sampleEnv { ptr := 10 } { pointer := 6 } sampleSt
      (by decide) (by decide)).1.2 ⟨by decide, by simp [sampleEnv, withStatus]⟩,
   (verify_success_iff_backend_ok_and_status sampleEnv { ptr := 10 } { pointer := 7 } sampleSt
      (by decide) (by decide)).2.1 ⟨by decide, by simp [sampleEnv, withStatus]⟩,
   ((verify_success_iff_backend_ok_and_status sampleEnv { ptr := 10 } { pointer := 6 } sampleSt
      (by decide) (by decide)).2.2 { pointer := 1 } { pointer := 5 } (by simp [sampleEnv])
      (by decide) (by simp [sampleEnv])).2
      ⟨by simp [sampleEnv], by simp [sampleEnv, withStatus]⟩⟩

/-- C2: evaluation of the code on a context destroyed twice.  `Destroy` leaves
the handle of the Go object in place, so the validity check still accepts the
context afterwards: the second `Destroy` succeeds and calls the backend destroy
a second time on the same handle, and `SetKey` and `SignNode` after the first
`Destroy` go on to use the handle instead of returning `ErrInvalidDSigCtx`. -/
theorem destroy_leaves_context_valid (B : Env R E) (ctx : DSigCtx) (k : Key) (n : XmlNode)
    (s : St R E) (hctx : ctx.ptr ≠ 0) (hn : n.pointer ≠ 0) :
    (xmlSecDSigCtxDestroy B (some ctx) s).1 = none ∧
    (xmlSecDSigCtxDestroy B (some ctx) (xmlSecDSigCtxDestroy B (some ctx) s).2).1 = none ∧
    (xmlSecDSigCtxDestroy B (some ctx) (xmlSecDSigCtxDestroy B (some ctx) s).2).2.trace =
      s.trace ++ [Call.xmlSecDSigCtxDestroy ctx.ptr, Call.xmlSecDSigCtxDestroy ctx.ptr] ∧
    (DSigCtx.SetKey (some ctx) (some k) (xmlSecDSigCtxDestroy B (some ctx) s).2).1 =
      GoResult.ret none ∧
    (xmlSecDSigCtxSignNode B (some ctx) (some n) (xmlSecDSigCtxDestroy B (some ctx) s).2).2.trace =
      s.trace ++ [Call.xmlSecDSigCtxDestroy ctx.ptr, Call.xmlSecDSigCtxSign ctx.ptr n.pointer] := by
  simp [xmlSecDSigCtxDestroy, DSigCtx.SetKey, xmlSecDSigCtxSignNode, xmlSecDSigCtxSignRaw,
    validDSigCtxPtr, validNodePtr, St.after, hctx, hn]
  split_ifs <;> rfl

/-- Witness for C2 on context 10 in the concrete environment: two destroys both
succeed and the backend destroy is called twice on handle 10. -/
theorem destroy_leaves_context_valid_witness :
    (xmlSecDSigCtxDestroy sampleEnv (some { ptr := 10 })
      (xmlSecDSigCtxDestroy sampleEnv (some { ptr := 10 }) sampleSt).2).1 = none ∧
    (xmlSecDSigCtxDestroy sampleEnv (some { ptr := 10 })
      (xmlSecDSigCtxDestroy sampleEnv (some { ptr := 10 }) sampleSt).2).2.trace =
      sampleSt.trace ++ [Call.xmlSecDSigCtxDestroy 10, Call.xmlSecDSigCtxDestroy 10] :=
  ⟨(destroy_leaves_context_valid sampleEnv { ptr := 10 } { ptr := 21 } { pointer := 6 } sampleSt
      (by decide) (by decide)).2.1,
   (destroy_leaves_context_valid sampleEnv { ptr := 10 } { ptr := 21 } { pointer := 6 } sampleSt
      (by decide) (by decide)).2.2.1⟩

/-- C3: evaluation of the code on an empty buffer.  For every format,
`xmlSecCryptoAppKeyLoadMemory` on the empty buffer panics on `&buf[0]` before
any backend call: it returns neither a key nor an error. -/
theorem loadMemory_empty_buffer_panics (B : Env R E) (format : KeyDataFormat) (s : St R E) :
    xmlSecCryptoAppKeyLoadMemory B [] format s =
      (GoResult.panicked "runtime error: index out of range [0] with length 0", s) ∧
    (∀ r, (xmlSecCryptoAppKeyLoadMemory B [] format s).1 ≠ GoResult.ret r) := by
  simp [xmlSecCryptoAppKeyLoadMemory]

/-- C4: for a valid context and a document whose root element is valid, when
the locator finds no Signature element under the root, `SignDocument` and
`VerifyDocument` each return the error "failed to find start node"; the only C
call made is the locator call (no sign or verify call), and the C state, with
the context status and the document in it, is unchanged. -/
theorem document_without_signature_not_found (B : Env R E) (ctx : DSigCtx) (doc : Document)
    (root : XmlNode) (s : St R E) (hctx : ctx.ptr ≠ 0)
    (hroot : B.DocumentElement s.c doc = Except.ok (some root)) (hrp : root.pointer ≠ 0)
    (hfind : B.xmlSecFindNode s.c root.pointer (stringToXMLChar B.SignatureNode)
        (stringToXMLChar B.DSigNs) = 0) :
    (xmlSecDSigCtxSignDocument B (some ctx) doc s).1 =
      some (GoError.new "failed to find start node") ∧
    (xmlSecDSigCtxSignDocument B (some ctx) doc s).2.c = s.c ∧
    (xmlSecDSigCtxSignDocument B (some ctx) doc s).2.trace =
      s.trace ++ [Call.xmlSecFindNode root.pointer (stringToXMLChar B.SignatureNode)
        (stringToXMLChar B.DSigNs)] ∧
    (xmlSecDSigCtxVerifyDocument B (some ctx) doc s).1 =
      some (GoError.new "failed to find start node") ∧
    (xmlSecDSigCtxVerifyDocument B (some ctx) doc s).2.c = s.c ∧
    (xmlSecDSigCtxVerifyDocument B (some ctx) doc s).2.trace =
      s.trace ++ [Call.xmlSecFindNode root.pointer (stringToXMLChar B.SignatureNode)
        (stringToXMLChar B.DSigNs)] := by
  simp [xmlSecDSigCtxSignDocument, xmlSecDSigCtxVerifyDocument, validDSigCtxPtr, validNodePtr,
    St.after, hctx, hroot, hrp, hfind]

/-- Witness for C4: document 2 of the concrete environment has root 7 and no
Signature element. -/
theorem document_without_signature_not_found_witness :
    (xmlSecDSigCtxSignDocument sampleEnv (some { ptr := 10 }) { pointer := 2 } sampleSt).1 =
      some (GoError.new "failed to find start node") ∧
    (xmlSecDSigCtxVerifyDocument sampleEnv (some { ptr := 10 }) { pointer := 2 } sampleSt).2.trace =
      sampleSt.trace ++
        [Call.xmlSecFindNode 7 (stringToXMLChar sampleEnv.SignatureNode)
          (stringToXMLChar sampleEnv.DSigNs)] :=
  ⟨(document_without_signature_not_found sampleEnv { ptr := 10 } { pointer := 2 } { pointer := 7 }
      sampleSt (by decide) (by simp [sampleEnv]) (by decide) (by simp [sampleEnv])).1,
   (document_without_signature_not_found sampleEnv { ptr := 10 } { pointer := 2 } { pointer := 7 }
      sampleSt (by decide) (by simp [sampleEnv]) (by decide) (by simp [sampleEnv])).2.2.2.2.2⟩

/-- C5: for a node argument that is nil or whose pointer is nil, each of
`SignNode`, `VerifyNode` (given a valid context), `AddReference`,
`AddTransform`, `EnsureKeyInfo` and `AddX509Data` returns `ErrInvalidNode` and
leaves the state, the call trace included, untouched: nothing reaches the
backend. -/
theorem absent_node_gives_invalid_node (B : Env R E) (ctx : DSigCtx) (n : Node)
    (digestMethod transformId : TransformID) (id uri nodeType : String) (s : St R E)
    (hctx : ctx.ptr ≠ 0) (hn : ∀ x, n = some x → x.pointer = 0) :
    xmlSecDSigCtxSignNode B (some ctx) n s = (some GoError.ErrInvalidNode, s) ∧
    xmlSecDSigCtxVerifyNode B (some ctx) n s = (some GoError.ErrInvalidNode, s) ∧
    xmlSecTmplSignatureAddReference B n digestMethod id uri nodeType s =
      (Except.error GoError.ErrInvalidNode, s) ∧
    xmlSecTmplReferenceAddTransform B n transformId s = (Except.error GoError.ErrInvalidNode, s) ∧
    xmlSecTmplSignatureEnsureKeyInfo B n id s = (Except.error GoError.ErrInvalidNode, s) ∧
    xmlSecTmplKeyInfoAddX509Data B n s = (Except.error GoError.ErrInvalidNode, s) := by
  have hv : validNodePtr n = Except.error GoError.ErrInvalidNode := by
    cases n with
    | none => rfl
    | some x => simp [validNodePtr, hn x rfl]
  simp [xmlSecDSigCtxSignNode, xmlSecDSigCtxVerifyNode, xmlSecTmplSignatureAddReference,
    xmlSecTmplReferenceAddTransform, xmlSecTmplSignatureEnsureKeyInfo,
    xmlSecTmplKeyInfoAddX509Data, validDSigCtxPtr, hctx, hv]

/-- Witness for C5 on the nil node and on a node whose pointer is nil. -/
theorem absent_node_gives_invalid_node_witness :
    xmlSecDSigCtxSignNode sampleEnv (some { ptr := 10 }) none sampleSt =
      (some GoError.ErrInvalidNode, sampleSt) ∧
    xmlSecTmplKeyInfoAddX509Data sampleEnv (some { pointer := 0 }) sampleSt =
      (Except.error GoError.ErrInvalidNode, sampleSt) :=
  ⟨(absent_node_gives_invalid_node sampleEnv { ptr := 10 } none { ptr := 3 } { ptr := 4 }
      "" "" "" sampleSt (by decide) (by simp)).1,
   (absent_node_gives_invalid_node sampleEnv { ptr := 10 } (some { pointer := 0 }) { ptr := 3 }
      { ptr := 4 } "" "" "" sampleSt (by decide) (by
        intro x hx
        cases hx
        rfl)).2.2.2.2.2⟩

/-- C6: evaluation of the code when the key load succeeds and naming the key
fails.  `xmlSecCryptoAppKeyLoad` returns the error "failed to set key name" and
no key, and the only C calls it has made are the load and the naming: the key
destroy is not called, and the C state is the one the naming call left, with
the loaded key still in it. -/
theorem keyLoad_name_failure_does_not_release (B : Env R E) (file : String)
    (format : KeyDataFormat) (s : St R E)
    (hload : (B.xmlSecCryptoAppKeyLoad s.c (CString file) (cKeyDataFormat format)).1 ≠ 0)
    (hname : (B.xmlSecKeySetName (B.xmlSecCryptoAppKeyLoad s.c (CString file) (cKeyDataFormat format)).2
      (B.xmlSecCryptoAppKeyLoad s.c (CString file) (cKeyDataFormat format)).1 (CString file)).1 < 0) :
    (xmlSecCryptoAppKeyLoad B file format s).1 =
      Except.error (GoError.new "failed to set key name") ∧
    (xmlSecCryptoAppKeyLoad B file format s).2.trace =
      s.trace ++ [Call.xmlSecCryptoAppKeyLoad (CString file) (cKeyDataFormat format),
        Call.xmlSecKeySetName (B.xmlSecCryptoAppKeyLoad s.c (CString file) (cKeyDataFormat format)).1
          (CString file)] ∧
    Call.xmlSecKeyDestroy (B.xmlSecCryptoAppKeyLoad s.c (CString file) (cKeyDataFormat format)).1 ∉
      [Call.xmlSecCryptoAppKeyLoad (CString file) (cKeyDataFormat format),
        Call.xmlSecKeySetName (B.xmlSecCryptoAppKeyLoad s.c (CString file) (cKeyDataFormat format)).1
          (CString file)] ∧
    (xmlSecCryptoAppKeyLoad B file format s).2.c =
      (B.xmlSecKeySetName (B.xmlSecCryptoAppKeyLoad s.c (CString file) (cKeyDataFormat format)).2
        (B.xmlSecCryptoAppKeyLoad s.c (CString file) (cKeyDataFormat format)).1 (CString file)).2 := by
  simp [xmlSecCryptoAppKeyLoad, St.after, hload, hname]

/-- Witness for C6: in the concrete environment the load yields key 21 and
naming fails; the run ends with the two calls and no destroy of key 21. -/
theorem keyLoad_name_failure_does_not_release_witness :
    (xmlSecCryptoAppKeyLoad sampleEnv "key.pem" 2 sampleSt).1 =
      Except.error (GoError.new "failed to set key name") ∧
    (xmlSecCryptoAppKeyLoad sampleEnv "key.pem" 2 sampleSt).2.trace =
      sampleSt.trace ++ [Call.xmlSecCryptoAppKeyLoad "key.pem" 2,
        Call.xmlSecKeySetName (sampleEnv.xmlSecCryptoAppKeyLoad sampleSt.c "key.pem" 2).1
          "key.pem"] :=
  ⟨(keyLoad_name_failure_does_not_release sampleEnv "key.pem" 2 sampleSt
      (by simp [sampleEnv]) (by simp [sampleEnv])).1,
   (keyLoad_name_failure_does_not_release sampleEnv "key.pem" 2 sampleSt
      (by simp [sampleEnv]) (by simp [sampleEnv])).2.1⟩

/-- C7, as stated, fails: on the valid signature node 6 with an empty uri, the
template provider, which records the uri it is given, receives an absent uri
and never the empty string. -/
theorem addReference_empty_uri_counterexample :
    (xmlSecTmplSignatureAddReference uriRecordingEnv (some { pointer := 6 }) { ptr := 3 }
      "" "" "" uriRecordingSt).2.c.ext = [none] ∧
    some "" ∉ (xmlSecTmplSignatureAddReference uriRecordingEnv (some { pointer := 6 })
      { ptr := 3 } "" "" "" uriRecordingSt).2.c.ext ∧
    (xmlSecTmplSignatureAddReference uriRecordingEnv (some { pointer := 6 }) { ptr := 3 }
      "" "" "" uriRecordingSt).2.trace =
      [Call.xmlSecTmplSignatureAddReference 6 3 none none none] := by
  simp [xmlSecTmplSignatureAddReference, validNodePtr, St.after, uriRecordingSt,
    uriRecordingEnv, quietEnv]

/-- C7, amended: for every valid signature node and digest method,
`AddReference` called with an empty uri hands the uri to the template provider
as an absent (null) value, not as an empty string: the provider is called once,
with an absent uri, and the result and the state of `AddReference` are those
of that call. -/
theorem addReference_empty_uri_is_absent (B : Env R E) (signode : XmlNode)
    (digestMethod : TransformID) (id nodeType : String) (s : St R E)
    (hn : signode.pointer ≠ 0) :
    ∃ idxml typexml : Option String,
      xmlSecTmplSignatureAddReference B (some signode) digestMethod id "" nodeType s =
        (if (B.xmlSecTmplSignatureAddReference s.c signode.pointer digestMethod.ptr
              idxml none typexml).1 = 0
         then Except.error (GoError.new "failed to add reference")
         else B.WrapToNodeUnsafe
           (B.xmlSecTmplSignatureAddReference s.c signode.pointer digestMethod.ptr
              idxml none typexml).2
           (B.xmlSecTmplSignatureAddReference s.c signode.pointer digestMethod.ptr
              idxml none typexml).1,
         s.after
           (B.xmlSecTmplSignatureAddReference s.c signode.pointer digestMethod.ptr
              idxml none typexml).2
           (Call.xmlSecTmplSignatureAddReference signode.pointer digestMethod.ptr
              idxml none typexml)) := by
  refine ⟨if id ≠ "" then some (stringToXMLChar id) else none,
    if nodeType ≠ "" then some (stringToXMLChar nodeType) else none, ?_⟩
  simp only [xmlSecTmplSignatureAddReference, validNodePtr, hn]
  split_ifs <;> simp_all [St.after]

/-- Witness for the amended C7: the recording provider, called on node 6 with
an empty uri, has recorded exactly one uri, an absent one. -/
theorem addReference_empty_uri_is_absent_witness :
    (6 : Nat) ≠ 0 ∧
    (xmlSecTmplSignatureAddReference uriRecordingEnv (some { pointer := 6 }) { ptr := 3 }
      "ref-1" "" "" uriRecordingSt).2.c.ext = [none] := by
  refine ⟨by decide, ?_⟩
  obtain ⟨idxml, typexml, h⟩ := addReference_empty_uri_is_absent uriRecordingEnv
    { pointer := 6 } { ptr := 3 } "ref-1" "" uriRecordingSt (by decide)
  rw [h]
  simp [St.after, uriRecordingEnv, uriRecordingSt]

/-- C9: for a context with a non-nil handle and keys `k1`, `k2`, `SetKey k1`
followed by `SetKey k2` both succeed; afterwards the bound key of the context is
the handle of `k2`, its status and remaining fields are as before, every other
context struct and the rest of the C world (where the keys live) are as before
after each call, and neither call makes any C call, so `k1` is neither freed
nor modified. -/
theorem SetKey_rebind_replaces_binding (ctx : DSigCtx) (k1 k2 : Key) (s : St R E)
    (hctx : ctx.ptr ≠ 0) :
    (DSigCtx.SetKey (some ctx) (some k1) s).1 = GoResult.ret none ∧
    (DSigCtx.SetKey (some ctx) (some k2) (DSigCtx.SetKey (some ctx) (some k1) s).2).1 =
      GoResult.ret none ∧
    ((DSigCtx.SetKey (some ctx) (some k2)
      (DSigCtx.SetKey (some ctx) (some k1) s).2).2.c.dsigCtx ctx.ptr).signKey = k2.ptr ∧
    ((DSigCtx.SetKey (some ctx) (some k2)
      (DSigCtx.SetKey (some ctx) (some k1) s).2).2.c.dsigCtx ctx.ptr).status =
        (s.c.dsigCtx ctx.ptr).status ∧
    ((DSigCtx.SetKey (some ctx) (some k2)
      (DSigCtx.SetKey (some ctx) (some k1) s).2).2.c.dsigCtx ctx.ptr).rest =
        (s.c.dsigCtx ctx.ptr).rest ∧
    (∀ p, p ≠ ctx.ptr →
      (DSigCtx.SetKey (some ctx) (some k2)
        (DSigCtx.SetKey (some ctx) (some k1) s).2).2.c.dsigCtx p = s.c.dsigCtx p) ∧
    (DSigCtx.SetKey (some ctx) (some k1) s).2.c.ext = s.c.ext ∧
    (DSigCtx.SetKey (some ctx) (some k2) (DSigCtx.SetKey (some ctx) (some k1) s).2).2.c.ext =
      s.c.ext ∧
    (DSigCtx.SetKey (some ctx) (some k1) s).2.trace = s.trace ∧
    (DSigCtx.SetKey (some ctx) (some k2) (DSigCtx.SetKey (some ctx) (some k1) s).2).2.trace =
      s.trace := by
  simp [DSigCtx.SetKey, validDSigCtxPtr, CState.setSignKey, hctx]
  intro p hp
  simp [hp]

/-- Witness for C9: binding key 20 and then key 21 to context 10. -/
theorem SetKey_rebind_replaces_binding_witness :
    ((DSigCtx.SetKey (some { ptr := 10 }) (some { ptr := 21 })
      (DSigCtx.SetKey (some { ptr := 10 }) (some { ptr := 20 }) sampleSt).2).2.c.dsigCtx 10).signKey
      = 21 ∧
    (DSigCtx.SetKey (some { ptr := 10 }) (some { ptr := 21 })
      (DSigCtx.SetKey (some { ptr := 10 }) (some { ptr := 20 }) sampleSt).2).2.trace = [] :=
  ⟨(SetKey_rebind_replaces_binding { ptr := 10 } { ptr := 20 } { ptr := 21 } sampleSt
      (by decide)).2.2.1,
   (SetKey_rebind_replaces_binding { ptr := 10 } { ptr := 20 } { ptr := 21 } sampleSt
      (by decide)).2.2.2.2.2.2.2.2.2⟩

end Xmlsec
